import Mathlib

/-!
Verification of the BurntBeats procedural music composition engine.

The Python sources under `server/` are shallowly embedded here:
machine floats become exact rationals (`ℚ`), Python `int()` becomes
truncation toward zero, the process-global `random` module becomes an
explicit stream of draws (`PyRand`) threaded through every generator,
and `math.sin` / `math.pi` become an abstract oscillator record
(`Trig`), since the claims under study never depend on the analytic
values of the sine wave, only on buffer structure, lengths, indices
and table contents.  Fallible Python code (index errors, division by
zero) returns `Option`.
-/

/-- Truncation toward zero, the semantics of Python `int()` on a float. -/
def ratTrunc (q : ℚ) : ℤ := if q < 0 then -(⌊-q⌋) else ⌊q⌋

/-- Abstract stand-in for `math.sin` and `math.pi`: the claims checked
here never depend on analytic properties of the sine wave, so the
oscillator is a parameter of the embedding. -/
structure Trig where
  sin : ℚ → ℚ
  pi : ℚ

/-- Explicit model of the process-global `random` module: a stream of
natural-number draws (driving `randint` / `choice`) and a stream of
rational draws in `[0,1)` (driving `random()` / `uniform`), consumed
in order through an index. -/
structure PyRand where
  nats : ℕ → ℕ
  reals : ℕ → ℚ
  idx : ℕ

def PyRand.nextNat (g : PyRand) : ℕ × PyRand :=
  (g.nats g.idx, { g with idx := g.idx + 1 })

def PyRand.nextReal (g : PyRand) : ℚ × PyRand :=
  (g.reals g.idx, { g with idx := g.idx + 1 })

/-- Model of `random.choice(l)`: an arbitrary element of `l`, selected by
the next draw.  `dflt` is returned only for the empty list, on which
Python raises. -/
def pyChoice (l : List α) (dflt : α) (g : PyRand) : α × PyRand :=
  let p := g.nextNat
  (l.getD (p.1 % l.length) dflt, p.2)

/-- Model of `random.randint(a, b)`: an arbitrary element of `[a, b]`,
faithful whenever `a ≤ b` (Python raises otherwise). -/
def pyRandintN (a b : ℕ) (g : PyRand) : ℕ × PyRand :=
  let p := g.nextNat
  (a + p.1 % (b + 1 - a), p.2)

/-- Model of `random.random()`: the next rational draw. -/
def pyRandom (g : PyRand) : ℚ × PyRand := g.nextReal

/-- Model of `random.uniform(a, b) = a + (b-a)*random()`. -/
def pyUniform (a b : ℚ) (g : PyRand) : ℚ × PyRand :=
  let p := g.nextReal
  (a + (b - a) * p.1, p.2)

/-- Whitespace recognized by Python `str.split()` / `str.strip()`
(the characters that occur in this code base). -/
def isWsChar (c : Char) : Bool :=
  c = ' ' || c = '\t' || c = '\n' || c = '\r'

def splitWsAux : List Char → List Char → List (List Char)
  | [], [] => []
  | [], cur => [cur.reverse]
  | c :: cs, cur =>
    if isWsChar c then
      if cur.isEmpty then splitWsAux cs []
      else cur.reverse :: splitWsAux cs []
    else splitWsAux cs (c :: cur)

/-- Python `str.split()` with no argument: split on whitespace runs,
dropping empty fields. -/
def pySplit (s : String) : List String :=
  (splitWsAux s.data []).map List.asString

def splitOnCharAux (sep : Char) : List Char → List Char → List (List Char)
  | [], cur => [cur.reverse]
  | c :: cs, cur =>
    if c = sep then cur.reverse :: splitOnCharAux sep cs []
    else splitOnCharAux sep cs (c :: cur)

/-- Python `str.split(sep)` for a one-character separator: keeps empty
fields. -/
def pySplitOn (sep : Char) (s : String) : List String :=
  (splitOnCharAux sep s.data []).map List.asString

/-- Python `str.strip()` on whitespace. -/
def pyStrip (s : String) : String :=
  ((s.data.dropWhile isWsChar).reverse.dropWhile isWsChar).reverse.asString

/-- Python `str.lower()` (ASCII suffices for this code base). -/
def pyLower (s : String) : String := (s.data.map Char.toLower).asString

/-- Python `str.upper()`. -/
def pyUpper (s : String) : String := (s.data.map Char.toUpper).asString

/-- Writing pass `for i in range(start, stop): l[i] = f i` of a Python
list-mutation loop. -/
def writeRange (l : List ℚ) (start stop : ℕ) (f : ℕ → ℚ) : List ℚ :=
  (List.range' start (stop - start)).foldl (fun acc i => acc.set i (f i)) l

/-- Accumulating pass `for i in range(start, stop): l[i] += f i`. -/
def addRange (l : List ℚ) (start stop : ℕ) (f : ℕ → ℚ) : List ℚ :=
  (List.range' start (stop - start)).foldl
    (fun acc i => acc.set i (acc.getD i 0 + f i)) l

/-- Option-valued map over a list: a Python `for` loop that raises
(returns `none`) as soon as one iteration fails. -/
def mapOpt (f : α → Option β) : List α → Option (List β)
  | [] => some []
  | a :: l =>
    match f a, mapOpt f l with
    | some b, some bs => some (b :: bs)
    | _, _ => none

namespace MusicGenerator

/-! Embedding of `server/music-generator.py`. -/

def positive_words : List String :=
  ["love", "happy", "joy", "bright", "beautiful", "amazing", "wonderful",
   "dream", "hope"]

def negative_words : List String :=
  ["sad", "cry", "pain", "dark", "lost", "broken", "hurt", "alone", "fear"]

/-- `analyze_emotional_content` (lines 311-323). -/
def analyze_emotional_content (lyrics : String) : ℚ :=
  if lyrics.length = 0 then 0.5
  else
    let words := pySplit (pyLower lyrics)
    let positive_count : ℕ := words.countP (fun w => positive_words.contains w)
    let negative_count : ℕ := words.countP (fun w => negative_words.contains w)
    ((positive_count : ℚ) + 0.5) / ((positive_count : ℚ) + (negative_count : ℚ) + 1)

def syllVowels : List Char := ['a', 'e', 'i', 'o', 'u', 'y']

def vowelGroups (w : List Char) : ℕ :=
  (w.foldl
    (fun (acc : ℕ × Bool) c =>
      if syllVowels.contains c then
        if acc.2 then acc else (acc.1 + 1, true)
      else (acc.1, false))
    (0, false)).1

/-- `count_syllables` (lines 325-347). -/
def count_syllables (word : String) : ℕ :=
  let punct : List Char := ['.', ',', '!', '?', ';', ':']
  let w := ((((pyLower word).data.dropWhile punct.contains).reverse.dropWhile
    punct.contains).reverse)
  if w.isEmpty then 1
  else
    let n := vowelGroups w
    let n := if w.getLast? = some 'e' ∧ 1 < n then n - 1 else n
    max 1 n

/-- `choose_note_for_word` (lines 382-392). -/
def choose_note_for_word (word : String) (note_range : List ℚ) (emotional_weight : ℚ) : ℚ :=
  let vowel_count : ℕ :=
    ((pyLower word).data.countP (fun c => (['a', 'e', 'i', 'o', 'u'] : List Char).contains c))
  let word_length : ℕ := word.length
  let note_index : ℤ :=
    ratTrunc (((vowel_count : ℚ) / (max word_length 1 : ℕ) + emotional_weight) *
      (note_range.length : ℚ))
  let note_index : ℤ := max 0 (min note_index ((note_range.length : ℤ) - 1))
  note_range.getD note_index.toNat 0

/-- `calculate_envelope` (lines 394-404). -/
def calculate_envelope (t note_duration : ℚ) : ℚ :=
  if t < 0.1 then t / 0.1
  else if note_duration - 0.3 < t then (note_duration - t) / 0.3
  else 1.0

/-- `get_base_frequency` (lines 434-441). -/
def get_base_frequency (key : String) : ℚ :=
  (([("C", 261.63), ("C#", 277.18), ("D", 293.66), ("D#", 311.13),
     ("E", 329.63), ("F", 349.23), ("F#", 369.99), ("G", 392.00),
     ("G#", 415.30), ("A", 440.00), ("A#", 466.16), ("B", 493.88)] :
    List (String × ℚ)).lookup (pyUpper key)).getD 261.63

/-- `get_scale_frequencies` (lines 253-267). -/
def get_scale_frequencies (root_freq : ℚ) (genre : String) : List ℚ :=
  let major_ratios : List ℚ := [1.0, 1.125, 1.25, 1.333, 1.5, 1.667, 1.875, 2.0]
  let ratios : List ℚ :=
    if genre = "blues" ∨ genre = "jazz" then
      [1.0, 1.125, 1.2, 1.25, 1.333, 1.4, 1.5, 1.667, 1.8, 1.875, 2.0]
    else if genre = "minor" then
      [1.0, 1.125, 1.2, 1.333, 1.5, 1.6, 1.8, 2.0]
    else major_ratios
  ratios.map (fun ratio => root_freq * ratio)

/-- `get_chord_progression` (lines 269-280). -/
def get_chord_progression (genre : String) (root_freq : ℚ) : List ℚ :=
  let progressions : List (String × List ℚ) :=
    [("pop", [1.0, 0.75, 1.125, 1.0]),
     ("rock", [1.0, 1.333, 0.75, 1.0]),
     ("blues", [1.0, 1.333, 1.0, 1.0]),
     ("jazz", [1.0, 0.75, 1.125, 1.0]),
     ("country", [1.0, 1.333, 1.125, 1.0])]
  let ratios := (progressions.lookup genre).getD [1.0, 0.75, 1.125, 1.0]
  ratios.map (fun ratio => root_freq * ratio)

/-- `get_bass_pattern` (lines 282-290). -/
def get_bass_pattern (genre : String) : List Bool :=
  (([("pop", [true, false, true, false]),
     ("rock", [true, false, false, true]),
     ("blues", [true, false, true, true]),
     ("jazz", [true, true, false, true])] :
    List (String × List Bool)).lookup genre).getD [true, false, true, false]

/-- `get_strum_pattern` (lines 292-300). -/
def get_strum_pattern (genre : String) : List Bool :=
  (([("pop", [true, false, true, false]),
     ("rock", [true, true, false, true]),
     ("blues", [true, false, false, true]),
     ("ballad", [true, false, false, false])] :
    List (String × List Bool)).lookup genre).getD [true, false, true, false]

/-- `get_drum_patterns` (lines 302-309): kick and snare patterns. -/
def get_drum_patterns (genre : String) : List Bool × List Bool :=
  (([("pop", ([true, false, false, false], [false, false, true, false])),
     ("rock", ([true, false, true, false], [false, true, false, true])),
     ("blues", ([true, false, true, true], [false, false, true, false]))] :
    List (String × (List Bool × List Bool))).lookup genre).getD
    ([true, false, false, false], [false, false, true, false])

/-- State of the melody-generation loop: the sample buffer, the index of
the next lyric word, and the random stream. -/
def MelodyState : Type := List ℚ × ℕ × PyRand

/-- One iteration of the `for beat in range(0, total_beats, note_duration)`
loop of `generate_melody` (lines 136-167). -/
def melodyStep (scale_notes : List ℚ) (total_beats samples_per_beat : ℕ)
    (note_duration : ℕ) (words : List String) (emotional_weight : ℚ)
    (tg : Trig) (st : MelodyState) (beat : ℕ) : MelodyState :=
  let melody := st.1
  let current_note_index := st.2.1
  let g := st.2.2
  let note_range :=
    if (beat : ℚ) < (total_beats : ℚ) * 0.25 then scale_notes.take 5
    else if (beat : ℚ) < (total_beats : ℚ) * 0.75 then (scale_notes.drop 2).take 5
    else (scale_notes.drop 1).take 5
  let sel :
      ℚ × ℕ × PyRand :=
    if current_note_index < words.length then
      (choose_note_for_word (words.getD current_note_index "") note_range emotional_weight,
       current_note_index + 1, g)
    else
      let p := pyChoice note_range 0 g
      (p.1, current_note_index, p.2)
  let note_freq := sel.1
  let start_sample := beat * samples_per_beat
  let end_sample := min ((beat + note_duration) * samples_per_beat) melody.length
  let melody := writeRange melody start_sample end_sample (fun i =>
    let t : ℚ := ((i - start_sample : ℕ) : ℚ) / (samples_per_beat : ℚ)
    let vibrato := 1.0 + 0.02 * tg.sin (2 * tg.pi * 5 * t)
    let envelope := calculate_envelope t (note_duration : ℚ)
    envelope * 0.6 * tg.sin (2 * tg.pi * note_freq * vibrato * t / (samples_per_beat : ℚ)))
  (melody, sel.2)

/-- `generate_melody` (lines 119-169).  The unused prosody summaries of
lines 128-129 (`syllable_counts`, `phrase_structure`) feed only a log
line and are not part of the returned buffer. -/
def generate_melody (scale_notes : List ℚ) (total_beats samples_per_beat : ℕ)
    (genre lyrics : String) (tg : Trig) (g : PyRand) : List ℚ × PyRand :=
  let melody : List ℚ := List.replicate (total_beats * samples_per_beat) 0
  let words := if lyrics.length ≠ 0 then pySplit (pyLower lyrics)
               else ["la", "la", "la", "la"]
  let emotional_weight := analyze_emotional_content lyrics
  let note_duration : ℕ := if genre = "ballad" then 2 else 1
  let beats := List.range' 0 ((total_beats + note_duration - 1) / note_duration) note_duration
  let fin := beats.foldl
    (melodyStep scale_notes total_beats samples_per_beat note_duration words emotional_weight tg)
    (melody, 0, g)
  (fin.1, fin.2.2)

/-- `generate_bass_line` (lines 171-192). -/
def generate_bass_line (chord_progression : List ℚ) (total_beats samples_per_beat : ℕ)
    (genre : String) (tg : Trig) : List ℚ :=
  let bass_pattern := get_bass_pattern genre
  (List.range total_beats).foldl
    (fun bass beat =>
      let chord_index := (beat / 4) % chord_progression.length
      let bass_freq := chord_progression.getD chord_index 0 / 2
      if bass_pattern.getD (beat % bass_pattern.length) false then
        let start_sample := beat * samples_per_beat
        writeRange bass start_sample (min (start_sample + samples_per_beat) bass.length)
          (fun i =>
            let t : ℚ := ((i - start_sample : ℕ) : ℚ) / (samples_per_beat : ℚ)
            max 0 (1 - t * 2) * 0.8 * tg.sin (2 * tg.pi * bass_freq * t))
      else bass)
    (List.replicate (total_beats * samples_per_beat) 0)

/-- `generate_chord_accompaniment` (lines 194-223). -/
def generate_chord_accompaniment (chord_progression : List ℚ)
    (total_beats samples_per_beat : ℕ) (genre : String) (tg : Trig) : List ℚ :=
  let strum_pattern := get_strum_pattern genre
  (List.range total_beats).foldl
    (fun chords beat =>
      let chord_index := (beat / 4) % chord_progression.length
      let root_freq := chord_progression.getD chord_index 0
      if strum_pattern.getD (beat % strum_pattern.length) false then
        let start_sample := beat * samples_per_beat
        let end_sample := start_sample + samples_per_beat / 2
        let frequencies : List ℚ := [root_freq, root_freq * 1.25, root_freq * 1.5]
        writeRange chords start_sample (min end_sample chords.length)
          (fun i =>
            let t : ℚ := ((i - start_sample : ℕ) : ℚ) / (samples_per_beat : ℚ)
            let envelope := max 0 (1 - t * 3)
            envelope * (frequencies.foldl (fun acc freq =>
              acc + 0.3 * tg.sin (2 * tg.pi * freq * t)) 0))
      else chords)
    (List.replicate (total_beats * samples_per_beat) 0)

/-- One beat of `generate_drum_pattern` (lines 231-249).  The snare
branch draws fresh noise from the global random stream at every
sample, which is why the drum track depends on the hidden stream. -/
def drumStep (samples_per_beat : ℕ) (kick_pattern snare_pattern : List Bool)
    (tg : Trig) (st : List ℚ × PyRand) (beat : ℕ) : List ℚ × PyRand :=
  let drums := st.1
  let g := st.2
  let start_sample := beat * samples_per_beat
  let drums :=
    if kick_pattern.getD (beat % kick_pattern.length) false then
      addRange drums start_sample (min (start_sample + samples_per_beat / 4) drums.length)
        (fun i =>
          let t : ℚ := ((i - start_sample : ℕ) : ℚ) / (samples_per_beat : ℚ)
          max 0 (1 - t * 8) * 0.5 * tg.sin (2 * tg.pi * 60 * t))
    else drums
  if snare_pattern.getD (beat % snare_pattern.length) false then
    (List.range' start_sample
        (min (start_sample + samples_per_beat / 6) drums.length - start_sample)).foldl
      (fun st2 i =>
        let drums2 := st2.1
        let t : ℚ := ((i - start_sample : ℕ) : ℚ) / (samples_per_beat : ℚ)
        let envelope := max 0 (1 - t * 10)
        let p := pyUniform (-1) 1 st2.2
        let noise := p.1 * 0.3
        let tone := 0.2 * tg.sin (2 * tg.pi * 200 * t)
        (drums2.set i (drums2.getD i 0 + envelope * (noise + tone)), p.2))
      (drums, g)
  else (drums, g)

/-- `generate_drum_pattern` (lines 225-251). -/
def generate_drum_pattern (total_beats samples_per_beat : ℕ) (genre : String)
    (tg : Trig) (g : PyRand) : List ℚ × PyRand :=
  let pats := get_drum_patterns genre
  (List.range total_beats).foldl (drumStep samples_per_beat pats.1 pats.2 tg)
    (List.replicate (total_beats * samples_per_beat) 0, g)

/-- `generate_composition` (lines 71-117).  The final mixing loop reads
`melody[i]`, `bass[i]`, `chords[i]`, `drums[i]` for every
`i < duration_samples`; the four track buffers have length
`total_beats * samples_per_beat`, so the read is `Option`-valued and
the whole render returns `none` exactly where Python raises
`IndexError`.  `samples_per_beat = int(sample_rate / (tempo / 60.0))`
is embedded as exact integer division; it agrees with the float
computation at the tempos exercised here. -/
def generate_composition (scale_notes chord_progression : List ℚ) (tempo : ℕ)
    (duration_samples sample_rate : ℕ) (genre lyrics : String)
    (instrumental_only : Bool) (tg : Trig) (g : PyRand) :
    Option (List ℚ × List ℚ) :=
  let samples_per_beat := sample_rate * 60 / tempo
  let total_beats := duration_samples / samples_per_beat
  let mel := generate_melody scale_notes total_beats samples_per_beat genre lyrics tg g
  let melody := mel.1
  let bass := generate_bass_line chord_progression total_beats samples_per_beat genre tg
  let chords := generate_chord_accompaniment chord_progression total_beats samples_per_beat genre tg
  let drums := (generate_drum_pattern total_beats samples_per_beat genre tg mel.2).1
  let melody_volume : ℚ := if !instrumental_only then 0.4 else 0.6
  (mapOpt (fun i => do
      let m ← melody.get? i
      let b ← bass.get? i
      let c ← chords.get? i
      let d ← drums.get? i
      let left_sample := m * melody_volume + b * 0.3 + c * 0.2 + d * 0.1
      let right_sample := m * (melody_volume - 0.05) + b * 0.3 + c * 0.25 + d * 0.1
      some (max (-1) (min 1 (left_sample * 0.8)),
            max (-1) (min 1 (right_sample * 0.8))))
    (List.range duration_samples)).map List.unzip

/-- Little-endian byte encodings used by `int.to_bytes(n, 'little')`. -/
def enc16u (n : ℕ) : List ℕ := [n % 256, n / 256 % 256]

def enc32u (n : ℕ) : List ℕ :=
  [n % 256, n / 256 % 256, n / 65536 % 256, n / 16777216 % 256]

/-- Little-endian decoding of a 4-byte field. -/
def dec32 (bs : List ℕ) : ℕ :=
  bs.getD 0 0 + 256 * bs.getD 1 0 + 65536 * bs.getD 2 0 + 16777216 * bs.getD 3 0

/-- Little-endian decoding of a 2-byte field. -/
def dec16 (bs : List ℕ) : ℕ := bs.getD 0 0 + 256 * bs.getD 1 0

/-- `int.to_bytes(2, 'little', signed=True)`: two's-complement. -/
def enc16s (z : ℤ) : List ℕ := enc16u (z % 65536).toNat

/-- ASCII bytes of a literal such as `b'RIFF'`. -/
def bstr (s : String) : List ℕ := s.data.map Char.toNat

/-- `int(32767 * max(-1, min(1, x)))` applied per channel (lines 429-430). -/
def sample_to_int16 (x : ℚ) : ℤ := ratTrunc (32767 * max (-1) (min 1 x))

/-- The 44 header bytes written by lines 413-425. -/
def wav_header (duration_samples sample_rate : ℕ) : List ℕ :=
  bstr "RIFF" ++ enc32u (36 + duration_samples * 4) ++ bstr "WAVE" ++ bstr "fmt " ++
  enc32u 16 ++ enc16u 1 ++ enc16u 2 ++ enc32u sample_rate ++
  enc32u (sample_rate * 4) ++ enc16u 4 ++ enc16u 16 ++ bstr "data" ++
  enc32u (duration_samples * 4)

/-- `write_stereo_wav` (lines 406-432) as the byte stream it writes:
header then interleaved signed 16-bit little-endian samples.  The
source indexes `right_channel[i]` for `i < len(left_channel)`; the two
channels always have equal length at the call site, which `zip`
mirrors exactly. -/
def write_stereo_wav (left right : List ℚ) (sample_rate : ℕ) : List ℕ :=
  wav_header left.length sample_rate ++
  (left.zip right).flatMap (fun pr =>
    enc16s (sample_to_int16 pr.1) ++ enc16s (sample_to_int16 pr.2))

end MusicGenerator

namespace AdvancedComposer

/-! Embedding of `server/advanced-algorithmic-composer.py`
(`AdvancedAlgorithmicComposer`).  The `music21` scale object is
abstracted to its length `scale_len` (the pitch table
`self.scale_notes`); every claim here concerns indices into it, never
the pitches themselves. -/

/-- `_get_safe_rhythmic_duration` (lines 265-283). -/
def get_safe_rhythmic_duration (position total_length : ℕ) : ℚ :=
  if total_length = 0 then 1.0
  else if position = 0 ∨ position = total_length - 1 then 1.0
  else if position % 4 = 0 then 0.75
  else if position % 2 = 0 then 0.5
  else 0.25

/-- The default L-system rewrite rules of lines 63-69, as the partial
map held by the Python dict. -/
def default_rules (c : Char) : Option (List Char) :=
  if c = 'F' then some "F+G-F".data
  else if c = 'G' then some "G-F+G".data
  else if c = '+' then some "+".data
  else if c = '-' then some "-".data
  else none

/-- One rewriting round: `''.join(rules.get(char, char) for char in current)`
(lines 79-82). -/
def rewriteOnce (rules : Char → Option (List Char)) (cur : List Char) : List Char :=
  cur.flatMap (fun c => (rules c).getD [c])

/-- The bounded rewriting loop of lines 77-88: at most the given number
of rounds, hard-truncating to 10,000 characters and breaking out of
the loop after any round that exceeds that length.  Returns the final
string together with the number of rounds performed. -/
def lsysLoop (rules : Char → Option (List Char)) : ℕ → List Char → List Char × ℕ
  | 0, cur => (cur, 0)
  | n + 1, cur =>
    let nxt := rewriteOnce rules cur
    if 10000 < nxt.length then (nxt.take 10000, 1)
    else
      let r := lsysLoop rules n nxt
      (r.1, r.2 + 1)

/-- The L-system string produced by `generate_l_system_melody` before
note conversion: `min(iterations, 10)` rounds over the axiom. -/
def l_system_string (ax : List Char) (rules : Char → Option (List Char))
    (iterations : ℕ) : List Char :=
  (lsysLoop rules (min iterations 10) ax).1

/-- Number of rewriting rounds actually performed. -/
def l_system_rounds (ax : List Char) (rules : Char → Option (List Char))
    (iterations : ℕ) : ℕ :=
  (lsysLoop rules (min iterations 10) ax).2

/-- One symbol of the L-system-to-melody walk (lines 94-112): `F` emits
a note at the current scale degree when in bounds, `+`/`-` move the
degree with clamping, `G` emits a grace note.  Each emitted note is
recorded as its (1-indexed) scale degree and quarter-length. -/
def lsysNoteStep (scale_len total : ℕ) (st : List (ℕ × ℚ) × ℕ) (ic : ℕ × Char) :
    List (ℕ × ℚ) × ℕ :=
  let notes := st.1
  let current_degree := st.2
  let i := ic.1
  let symbol := ic.2
  if symbol = 'F' then
    (if 1 ≤ current_degree ∧ current_degree ≤ scale_len then
       notes ++ [(current_degree, get_safe_rhythmic_duration i total)]
     else notes, current_degree)
  else if symbol = '+' then (notes, min (current_degree + 1) scale_len)
  else if symbol = '-' then (notes, max (current_degree - 1) 1)
  else if symbol = 'G' then
    (if 1 ≤ current_degree ∧ current_degree ≤ scale_len then
       notes ++ [(current_degree, 0.25)]
     else notes, current_degree)
  else (notes, current_degree)

/-- The melody-conversion phase of `generate_l_system_melody`
(lines 90-115), over an arbitrary rewritten string `syms`:
`current_degree = random.randint(3, 5)`, then the walk over
`current[:length]`. -/
def generate_l_system_degrees (syms : List Char) (length scale_len : ℕ)
    (g : PyRand) : List (ℕ × ℚ) :=
  let p := pyRandintN 3 5 g
  (((syms.take length).enum).foldl (lsysNoteStep scale_len length) ([], p.1)).1

/-- One iteration of the random-walk loop (lines 135-166): clamp the
degree into `[1, scale_len]`, emit a note at it, maybe flip direction,
advance by `direction * step_size`, and reflect at the boundaries
without re-clamping. -/
def walkStep (scale_len lo hi : ℕ) (direction_change_prob : ℚ) (total : ℕ)
    (st : List (ℤ × ℚ) × ℤ × ℤ × PyRand) (i : ℕ) :
    List (ℤ × ℚ) × ℤ × ℤ × PyRand :=
  let notes := st.1
  let direction := st.2.2.1
  let g := st.2.2.2
  let current_degree := max 1 (min st.2.1 (scale_len : ℤ))
  let notes := notes ++ [(current_degree, get_safe_rhythmic_duration i total)]
  let pu := pyRandom g
  let direction := if pu.1 < direction_change_prob then -direction else direction
  let ps := pyRandintN lo hi pu.2
  let next_degree := current_degree + direction * (ps.1 : ℤ)
  if (scale_len : ℤ) < next_degree then
    (notes, (scale_len : ℤ) - (next_degree - (scale_len : ℤ)), -1, ps.2)
  else if next_degree < 1 then
    (notes, 1 + (1 - next_degree), 1, ps.2)
  else (notes, next_degree, direction, ps.2)

/-- `generate_random_walk_melody` (lines 120-169) as the sequence of
emitted (scale degree, quarter-length) pairs:
`current_degree = random.randint(3, min(5, len(scale_notes)))`,
`direction = random.choice([-1, 1])`, then `length` walk steps. -/
def generate_random_walk_degrees (length lo hi : ℕ) (direction_change_prob : ℚ)
    (scale_len : ℕ) (g : PyRand) : List (ℤ × ℚ) :=
  let r1 := pyRandintN 3 (min 5 scale_len) g
  let r2 := pyChoice [(-1 : ℤ), 1] 1 r1.2
  ((List.range length).foldl (walkStep scale_len lo hi direction_change_prob length)
    ([], (r1.1 : ℤ), r2.1, r2.2)).1

/-- The fixed Markov transition table of lines 182-189. -/
def chord_transitions : List (String × List (String × ℚ)) :=
  [("I", [("V", 0.3), ("vi", 0.25), ("IV", 0.25), ("ii", 0.1), ("iii", 0.1)]),
   ("ii", [("V", 0.5), ("vi", 0.2), ("IV", 0.15), ("I", 0.15)]),
   ("iii", [("vi", 0.4), ("IV", 0.3), ("I", 0.2), ("V", 0.1)]),
   ("IV", [("I", 0.3), ("V", 0.3), ("vi", 0.2), ("ii", 0.2)]),
   ("V", [("I", 0.4), ("vi", 0.3), ("IV", 0.2), ("ii", 0.1)]),
   ("vi", [("IV", 0.3), ("I", 0.25), ("V", 0.25), ("ii", 0.2)])]

/-- `chord_transitions.get(current_chord, {'I': 1.0})` (line 196). -/
def lookupRow (current_chord : String) : List (String × ℚ) :=
  (chord_transitions.lookup current_chord).getD [("I", 1.0)]

/-- The defensive weight normalization of lines 202-207: a zero-sum row
becomes the uniform distribution, otherwise weights are divided by
their sum. -/
def normalizeWeights (weights : List ℚ) : List ℚ :=
  if weights.sum = 0 then
    List.replicate weights.length (1 / (weights.length : ℚ))
  else weights.map (fun w => w / weights.sum)

/-- One step of the Markov chain (lines 193-210): look up the current
row, normalize its weights, and sample the next symbol from the row's
keys (the weighted `np.random.choice` draw is abstracted to an
arbitrary stream-driven selection among those keys). -/
def markovStep (st : List String × String × PyRand) (_i : ℕ) :
    List String × String × PyRand :=
  let progression := st.1
  let current_chord := st.2.1
  let transitions := lookupRow current_chord
  let chords := transitions.map Prod.fst
  let _weights := normalizeWeights (transitions.map Prod.snd)
  let p := pyChoice chords "I" st.2.2
  (progression ++ [p.1], p.1, p.2)

/-- `generate_markov_chord_progression` (lines 174-221) as the symbol
sequence: start at `'I'` and take `length - 1` Markov steps. -/
def generate_markov_chord_progression (length : ℕ) (g : PyRand) : List String :=
  ((List.range (length - 1)).foldl markovStep (["I"], "I", g)).1

/-- One cellular-automaton generation (lines 236-247): interior cells
are rewritten by `(rule >> ((left<<2)|(center<<1)|right)) & 1` into a
fresh all-zero row, so boundary cells stay inactive. -/
def caStep (length rule : ℕ) (cells : List ℕ) : List ℕ :=
  (List.range' 1 (length - 2)).foldl
    (fun new_cells i =>
      let left := cells.getD (i - 1) 0
      let center := cells.getD i 0
      let right := cells.getD (i + 1) 0
      let pattern := left <<< 2 ||| center <<< 1 ||| right
      new_cells.set i ((rule >>> pattern) &&& 1))
    (List.replicate length 0)

/-- The seed row of lines 230-231: a single active cell at the center. -/
def caInit (length : ℕ) : List ℕ := (List.replicate length 0).set (length / 2) 1

def caRowsFrom (length rule : ℕ) : ℕ → List ℕ → List (List ℕ)
  | 0, cells => [cells]
  | n + 1, cells => cells :: caRowsFrom length rule n (caStep length rule cells)

/-- The full trajectory of `generate_cellular_automata_rhythm`
(lines 226-247): the seed row followed by `min(5, length // 2)`
generations. -/
def generate_cellular_automata_rows (length rule : ℕ) : List (List ℕ) :=
  caRowsFrom length rule (min 5 (length / 2)) (caInit length)

/-- The duration list produced from the final generation
(lines 249-257). -/
def generate_cellular_automata_rhythm (length rule : ℕ) : List ℚ :=
  let cells := ((generate_cellular_automata_rows length rule).getLast?).getD []
  cells.map (fun cell =>
    if cell = 1 then 4.0 / (length : ℚ) else 4.0 / (length : ℚ) * 0.5)

end AdvancedComposer

namespace EnhancedGen

/-! Embedding of `server/enhanced-music21-generator.py` (the lyric
analysis and composition sizing; the `music21` object construction it
feeds is an external binding, out of scope per the spec). -/

/-- The emotional word table of lines 456-461. -/
def emotion_weights : List (String × ℚ) :=
  [("love", 0.9), ("joy", 0.8), ("happy", 0.7), ("beautiful", 0.6),
   ("amazing", 0.7), ("wonderful", 0.8), ("dream", 0.5), ("bright", 0.5),
   ("sad", -0.7), ("pain", -0.8), ("hurt", -0.6), ("broken", -0.7),
   ("dark", -0.5), ("lonely", -0.6), ("tears", -0.6), ("goodbye", -0.5)]

/-- `estimate_syllables` (lines 497-511): vowel-group count, minimum 1,
with no silent-e adjustment. -/
def estimate_syllables (word : String) : ℕ :=
  let vowels : List Char :=
    ['a', 'e', 'i', 'o', 'u', 'A', 'E', 'I', 'O', 'U']
  max 1 ((word.data.foldl
    (fun (acc : ℕ × Bool) c =>
      if vowels.contains c then
        if acc.2 then acc else (acc.1 + 1, true)
      else (acc.1, false))
    (0, false)).1)

/-- `get_rhythm_from_syllables` (lines 513-520). -/
def get_rhythm_from_syllables (syllable_count : ℕ) : String :=
  if syllable_count ≤ 4 then "simple"
  else if syllable_count ≤ 8 then "moderate"
  else "complex"

/-- One entry of `analysis['musical_phrases']` (lines 487-493). -/
structure Phrase where
  text : String
  emotion : ℚ
  syllables : ℕ
  suggested_rhythm : String
  melodic_direction : String
deriving DecidableEq

/-- The analysis record returned by `analyze_lyrics_for_music`
(lines 463-469; the `complexity_levels` field is mirrored as the word
counts it is derived from). -/
structure LyricAnalysis where
  lines : List String
  emotion_arc : List ℚ
  syllable_counts : List ℕ
  musical_phrases : List Phrase
deriving DecidableEq

/-- `analyze_lyrics_for_music` (lines 451-495).  Note that an empty or
whitespace-only lyric text yields empty `lines` and hence an empty
analysis: no synthetic line is substituted. -/
def analyze_lyrics_for_music (lyrics : String) : LyricAnalysis :=
  let lns := ((pySplitOn '\n' lyrics).map pyStrip).filter (fun l => l.length ≠ 0)
  let perLine := lns.map (fun line =>
    let words := pySplit (pyLower line)
    let line_emotion :=
      (words.foldl (fun acc word => acc + (emotion_weights.lookup word).getD 0) 0) /
        (max words.length 1 : ℕ)
    let syllable_count := (words.map estimate_syllables).sum
    (line_emotion, syllable_count))
  { lines := lns
    emotion_arc := perLine.map Prod.fst
    syllable_counts := perLine.map Prod.snd
    musical_phrases := (lns.zip perLine).map (fun p =>
      { text := p.1
        emotion := p.2.1
        syllables := p.2.2
        suggested_rhythm := get_rhythm_from_syllables p.2.2
        melodic_direction :=
          if 0.3 < p.2.1 then "ascending"
          else if p.2.1 < -0.3 then "descending"
          else "wave" }) }

/-- Python `a % b`, which raises `ZeroDivisionError` when `b = 0`. -/
def pyModOpt (a b : ℕ) : Option ℕ := if b = 0 then none else some (a % b)

/-- The lyric-phrase selection of `create_lyrics_informed_melody`
(lines 531-533): `phrase_idx = measure % len(lyric_analysis['musical_phrases'])`
for every measure.  The rest of the measure body only builds `music21`
note objects from the selected phrase. -/
def melody_phrase_indices (measures : ℕ) (phrases : List Phrase) : Option (List ℕ) :=
  mapOpt (fun measure => pyModOpt measure phrases.length) (List.range measures)

/-- The measure count of `create_enhanced_composition` (lines 433-434):
`max(8, int((duration_seconds * tempo_bpm / 60) / 4))`. -/
def measures_count (duration_seconds tempo_bpm : ℕ) : ℕ :=
  max 8 (ratTrunc (((duration_seconds : ℚ) * (tempo_bpm : ℚ) / 60) / 4)).toNat

end EnhancedGen

/-! General-purpose lemmas about the loop combinators of the embedding. -/

theorem foldl_preserves {σ α : Type _} (P : σ → Prop) (step : σ → α → σ)
    (hstep : ∀ s a, P s → P (step s a)) :
    ∀ (l : List α) (s : σ), P s → P (l.foldl step s) := by
  intro l
  induction l with
  | nil => intro s hs; exact hs
  | cons a l ih => intro s hs; exact ih (step s a) (hstep s a hs)

theorem length_writeRange (l : List ℚ) (start stop : ℕ) (f : ℕ → ℚ) :
    (writeRange l start stop f).length = l.length := by
  unfold writeRange
  exact foldl_preserves (fun s : List ℚ => s.length = l.length) _
    (fun s i hs => by simpa [List.length_set] using hs)
    (List.range' start (stop - start)) l rfl

theorem length_addRange (l : List ℚ) (start stop : ℕ) (f : ℕ → ℚ) :
    (addRange l start stop f).length = l.length := by
  unfold addRange
  exact foldl_preserves (fun s : List ℚ => s.length = l.length) _
    (fun s i hs => by simpa [List.length_set] using hs)
    (List.range' start (stop - start)) l rfl

theorem mapOpt_eq_none_of_mem {f : α → Option β} {l : List α} {a : α}
    (ha : a ∈ l) (hf : f a = none) : mapOpt f l = none := by
  induction l with
  | nil => cases ha
  | cons b l ih =>
    rcases List.mem_cons.1 ha with h | h
    · subst h
      unfold mapOpt
      rw [hf]
    · unfold mapOpt
      rw [ih h]
      cases f b <;> rfl

namespace MusicGenerator

theorem melodyStep_fst_length (scale_notes : List ℚ) (tb spb nd : ℕ)
    (words : List String) (ew : ℚ) (tg : Trig) (st : MelodyState) (beat : ℕ) :
    (melodyStep scale_notes tb spb nd words ew tg st beat).1.length = st.1.length := by
  simp only [melodyStep]
  exact length_writeRange _ _ _ _

theorem generate_melody_length (scale_notes : List ℚ) (tb spb : ℕ)
    (genre lyrics : String) (tg : Trig) (g : PyRand) :
    (generate_melody scale_notes tb spb genre lyrics tg g).1.length = tb * spb := by
  simp only [generate_melody]
  exact foldl_preserves (fun s : MelodyState => s.1.length = tb * spb) _
    (fun s a hs => by
      simpa [melodyStep_fst_length] using hs)
    _ _ (by simp)

/-- The mixing loop of `generate_composition` fails (Python raises
`IndexError`) whenever the shared track length
`total_beats * samples_per_beat` falls short of `duration_samples`,
i.e. whenever `samples_per_beat` does not divide `duration_samples`. -/
theorem generate_composition_eq_none (scale_notes chord_progression : List ℚ)
    (tempo duration_samples sample_rate : ℕ) (genre lyrics : String)
    (instr : Bool) (tg : Trig) (g : PyRand)
    (h : duration_samples / (sample_rate * 60 / tempo) * (sample_rate * 60 / tempo) <
      duration_samples) :
    generate_composition scale_notes chord_progression tempo duration_samples
      sample_rate genre lyrics instr tg g = none := by
  have hmem :
      duration_samples / (sample_rate * 60 / tempo) * (sample_rate * 60 / tempo) ∈
        List.range duration_samples := List.mem_range.2 h
  have hget :
      (generate_melody scale_notes (duration_samples / (sample_rate * 60 / tempo))
          (sample_rate * 60 / tempo) genre lyrics tg g).1.get?
        (duration_samples / (sample_rate * 60 / tempo) * (sample_rate * 60 / tempo)) =
        none :=
    List.get?_eq_none.2 (le_of_eq (generate_melody_length _ _ _ _ _ _ _))
  simp only [generate_composition]
  rw [mapOpt_eq_none_of_mem hmem (by rw [hget]; rfl)]
  rfl

end MusicGenerator

/-- C1: the spec promises that every valid render completes and returns
exactly `round(sample_rate * duration_seconds)` samples per channel,
in particular for empty lyrics, genre "jazz", key "A", tempo 90,
duration 5.  The code violates this at that very input: the mixing
loop of `generate_composition` reads `melody[i]` for every
`i < 220500`, but the four track buffers are
`total_beats * samples_per_beat = 7 * 29400 = 205800` samples long, so
Python raises `IndexError` (the render returns `none`) instead of
producing a 220500-sample buffer. -/
theorem c1_render_crashes_on_spec_scenario (tg : Trig) (g : PyRand) :
    MusicGenerator.generate_composition
      (MusicGenerator.get_scale_frequencies (MusicGenerator.get_base_frequency "A") "jazz")
      (MusicGenerator.get_chord_progression "jazz" (MusicGenerator.get_base_frequency "A"))
      90 220500 44100 "jazz" "" false tg g = none :=
  MusicGenerator.generate_composition_eq_none _ _ _ _ _ _ _ _ _ _ (by norm_num)

namespace MusicGenerator

theorem dec32_enc32u (n : ℕ) : dec32 (enc32u n) = n % 4294967296 := by
  show n % 256 + 256 * (n / 256 % 256) + 65536 * (n / 65536 % 256) +
      16777216 * (n / 16777216 % 256) = n % 4294967296
  omega

theorem dec16_enc16u (n : ℕ) : dec16 (enc16u n) = n % 65536 := by
  show n % 256 + 256 * (n / 256 % 256) = n % 65536
  omega

theorem length_sampleBytes (ps : List (ℚ × ℚ)) :
    (ps.flatMap (fun pr =>
      enc16s (sample_to_int16 pr.1) ++ enc16s (sample_to_int16 pr.2))).length =
      4 * ps.length := by
  induction ps with
  | nil => rfl
  | cons p ps ih =>
    rw [List.flatMap_cons, List.length_append, ih]
    show 4 + 4 * ps.length = 4 * (ps.length + 1)
    ring

theorem sampleBytes_extract (ps : List (ℚ × ℚ)) :
    ∀ i, i < ps.length →
      (((ps.flatMap (fun pr =>
          enc16s (sample_to_int16 pr.1) ++ enc16s (sample_to_int16 pr.2))).drop
        (4 * i)).take 4) =
        enc16s (sample_to_int16 (ps.getD i (0, 0)).1) ++
          enc16s (sample_to_int16 (ps.getD i (0, 0)).2) := by
  induction ps with
  | nil => intro i h; cases h
  | cons p ps ih =>
    intro i h
    cases i with
    | zero => rfl
    | succ j =>
      have h4 : 4 * (j + 1) = 4 + 4 * j := by ring
      have h1 : ((p :: ps).flatMap (fun pr =>
          enc16s (sample_to_int16 pr.1) ++ enc16s (sample_to_int16 pr.2))).drop 4 =
          ps.flatMap (fun pr =>
            enc16s (sample_to_int16 pr.1) ++ enc16s (sample_to_int16 pr.2)) := rfl
      have hdd :
          ((p :: ps).flatMap (fun pr =>
            enc16s (sample_to_int16 pr.1) ++ enc16s (sample_to_int16 pr.2))).drop
            (4 + 4 * j) =
          (ps.flatMap (fun pr =>
            enc16s (sample_to_int16 pr.1) ++ enc16s (sample_to_int16 pr.2))).drop
            (4 * j) := by
        rw [← List.drop_drop (4 * j) 4, h1]
      rw [h4, hdd]
      have hj : j < ps.length := by
        simpa using Nat.lt_of_succ_lt_succ h
      simpa using ih j hj

end MusicGenerator

set_option maxHeartbeats 1600000 in
/-- C2 (amended): serializing `K` stereo samples at rate `R` yields the
canonical 44-byte RIFF/WAVE header — RIFF size `36 + K*4`,
audioFormat 1, numChannels 2, byteRate `R*4`, blockAlign 4,
bitsPerSample 16, data size `K*4` — followed by interleaved
little-endian signed 16-bit samples; each sample value is
`int(32767 * clamp(x, -1, 1))`, i.e. TRUNCATED toward zero rather than
rounded as the claim states. -/
theorem c2_wav_layout (left right : List ℚ) (R : ℕ)
    (hlen : right.length = left.length)
    (hK : 36 + left.length * 4 < 4294967296) (hR : R * 4 < 4294967296) :
    ((MusicGenerator.write_stereo_wav left right R).take 4 =
        MusicGenerator.bstr "RIFF") ∧
    MusicGenerator.dec32 (((MusicGenerator.write_stereo_wav left right R).drop 4).take 4) =
      36 + left.length * 4 ∧
    ((MusicGenerator.write_stereo_wav left right R).drop 8).take 4 =
      MusicGenerator.bstr "WAVE" ∧
    ((MusicGenerator.write_stereo_wav left right R).drop 12).take 4 =
      MusicGenerator.bstr "fmt " ∧
    MusicGenerator.dec32 (((MusicGenerator.write_stereo_wav left right R).drop 16).take 4) =
      16 ∧
    MusicGenerator.dec16 (((MusicGenerator.write_stereo_wav left right R).drop 20).take 2) =
      1 ∧
    MusicGenerator.dec16 (((MusicGenerator.write_stereo_wav left right R).drop 22).take 2) =
      2 ∧
    MusicGenerator.dec32 (((MusicGenerator.write_stereo_wav left right R).drop 24).take 4) =
      R ∧
    MusicGenerator.dec32 (((MusicGenerator.write_stereo_wav left right R).drop 28).take 4) =
      R * 4 ∧
    MusicGenerator.dec16 (((MusicGenerator.write_stereo_wav left right R).drop 32).take 2) =
      4 ∧
    MusicGenerator.dec16 (((MusicGenerator.write_stereo_wav left right R).drop 34).take 2) =
      16 ∧
    ((MusicGenerator.write_stereo_wav left right R).drop 36).take 4 =
      MusicGenerator.bstr "data" ∧
    MusicGenerator.dec32 (((MusicGenerator.write_stereo_wav left right R).drop 40).take 4) =
      left.length * 4 ∧
    (MusicGenerator.write_stereo_wav left right R).length = 44 + 4 * left.length ∧
    ∀ i, i < left.length →
      ((MusicGenerator.write_stereo_wav left right R).drop (44 + 4 * i)).take 4 =
        MusicGenerator.enc16s (MusicGenerator.sample_to_int16 (left.getD i 0)) ++
          MusicGenerator.enc16s (MusicGenerator.sample_to_int16 (right.getD i 0)) := by
  have hR2 : R < 4294967296 := by omega
  have hK2 : left.length * 4 < 4294967296 := by omega
  refine ⟨rfl, ?_, rfl, rfl, ?_, ?_, ?_, ?_, ?_, ?_, ?_, rfl, ?_, ?_, ?_⟩
  · rw [show ((MusicGenerator.write_stereo_wav left right R).drop 4).take 4 =
        MusicGenerator.enc32u (36 + left.length * 4) from rfl,
      MusicGenerator.dec32_enc32u, Nat.mod_eq_of_lt hK]
  · rw [show ((MusicGenerator.write_stereo_wav left right R).drop 16).take 4 =
        MusicGenerator.enc32u 16 from rfl, MusicGenerator.dec32_enc32u]
  · rw [show ((MusicGenerator.write_stereo_wav left right R).drop 20).take 2 =
        MusicGenerator.enc16u 1 from rfl, MusicGenerator.dec16_enc16u]
  · rw [show ((MusicGenerator.write_stereo_wav left right R).drop 22).take 2 =
        MusicGenerator.enc16u 2 from rfl, MusicGenerator.dec16_enc16u]
  · rw [show ((MusicGenerator.write_stereo_wav left right R).drop 24).take 4 =
        MusicGenerator.enc32u R from rfl, MusicGenerator.dec32_enc32u,
      Nat.mod_eq_of_lt hR2]
  · rw [show ((MusicGenerator.write_stereo_wav left right R).drop 28).take 4 =
        MusicGenerator.enc32u (R * 4) from rfl, MusicGenerator.dec32_enc32u,
      Nat.mod_eq_of_lt hR]
  · rw [show ((MusicGenerator.write_stereo_wav left right R).drop 32).take 2 =
        MusicGenerator.enc16u 4 from rfl, MusicGenerator.dec16_enc16u]
  · rw [show ((MusicGenerator.write_stereo_wav left right R).drop 34).take 2 =
        MusicGenerator.enc16u 16 from rfl, MusicGenerator.dec16_enc16u]
  · rw [show ((MusicGenerator.write_stereo_wav left right R).drop 40).take 4 =
        MusicGenerator.enc32u (left.length * 4) from rfl,
      MusicGenerator.dec32_enc32u, Nat.mod_eq_of_lt hK2]
  · rw [MusicGenerator.write_stereo_wav, List.length_append,
      show (MusicGenerator.wav_header left.length R).length = 44 from rfl,
      MusicGenerator.length_sampleBytes, List.length_zip, hlen, Nat.min_self]
  · intro i hi
    have hiz : i < (left.zip right).length := by
      rw [List.length_zip, hlen, Nat.min_self]; exact hi
    have hdrop :
        (MusicGenerator.write_stereo_wav left right R).drop (44 + 4 * i) =
        ((left.zip right).flatMap (fun pr =>
          MusicGenerator.enc16s (MusicGenerator.sample_to_int16 pr.1) ++
          MusicGenerator.enc16s (MusicGenerator.sample_to_int16 pr.2))).drop (4 * i) := by
      rw [← List.drop_drop (4 * i) 44]
      rfl
    have hz : (left.zip right).getD i ((0 : ℚ), (0 : ℚ)) =
        (left.getD i 0, right.getD i 0) := by
      rw [List.getD_eq_getElem _ _ hiz, List.getD_eq_getElem _ _ hi,
        List.getD_eq_getElem _ _ (hlen ▸ hi)]
      simp [List.getElem_zip]
    rw [hdrop, MusicGenerator.sampleBytes_extract _ i hiz, hz]

/-- C2 counterexample: at one stereo sample `0.5` and rate 8000,
`write_stereo_wav` encodes `int(32767 * 0.5) = 16383`, not
`round(32767 * 0.5) = 16384` as the claim states, so the byte stream
differs from the claimed one. -/
theorem c2_counterexample :
    MusicGenerator.write_stereo_wav [0.5] [0.5] 8000 ≠
      MusicGenerator.wav_header 1 8000 ++
        (MusicGenerator.enc16s (round ((32767 : ℚ) * max (-1) (min 1 0.5))) ++
         MusicGenerator.enc16s (round ((32767 : ℚ) * max (-1) (min 1 0.5)))) := by
  with_unfolding_all decide

/-- C2 witness: the layout theorem applied at one concrete sample. -/
theorem c2_wav_layout_witness :
    (MusicGenerator.write_stereo_wav [0.5] [0.5] 8000).length = 44 + 4 * 1 :=
  (c2_wav_layout [0.5] [0.5] 8000 rfl (by norm_num) (by norm_num)).2.2.2.2.2.2.2.2.2.2.2.2.2.1

/-- C3: the spec claims the render is a deterministic function of the
input record (lyrics, genre, key, tempo, duration, seed).  The code
has no seed parameter at all: it draws from the process-global
`random` module, so two invocations with an identical musical input
but different ambient generator states produce different sample
buffers.  Here the drum generator, at identical musical arguments,
yields different tracks for two global-stream states (the snare-noise
draw `random.uniform(-1, 1)` lands on different values). -/
theorem c3_output_depends_on_hidden_rng_state :
    (MusicGenerator.generate_drum_pattern 3 6 "pop" ⟨fun _ => 0, 0⟩
      ⟨fun _ => 0, fun _ => 0, 0⟩).1 ≠
    (MusicGenerator.generate_drum_pattern 3 6 "pop" ⟨fun _ => 0, 0⟩
      ⟨fun _ => 0, fun _ => 1/2, 0⟩).1 := by
  with_unfolding_all decide

/-- C4: the claim says that with no lyrics the prosody analysis
substitutes a single synthetic line with EmotionScore 0.5 so that
downstream generators never see an empty line set.  In
`enhanced-music21-generator.py` this is false: `analyze_lyrics_for_music`
returns empty `lines` / `emotion_arc` / `musical_phrases` for empty
lyric text, and `create_lyrics_informed_melody` then evaluates
`measure % 0`, raising `ZeroDivisionError` (here: `none`).  Only the
scalar analyzer of `music-generator.py` returns the claimed 0.5. -/
theorem c4_empty_lyrics_not_defaulted :
    (EnhancedGen.analyze_lyrics_for_music "").musical_phrases = [] ∧
    (EnhancedGen.analyze_lyrics_for_music "").emotion_arc = [] ∧
    EnhancedGen.melody_phrase_indices 8
      (EnhancedGen.analyze_lyrics_for_music "").musical_phrases = none ∧
    MusicGenerator.analyze_emotional_content "" = 0.5 := by
  refine ⟨?_, ?_, ?_, ?_⟩ <;> with_unfolding_all decide

/-- C5: in the fixed Markov transition table every row's probabilities
sum to exactly 1; every generated progression, whatever its requested
length and whatever the random stream yields, starts with "I"; and a
zero-sum weight row is replaced by the uniform distribution instead of
failing. -/
theorem c5_markov_table (len : ℕ) (g : PyRand) :
    (∀ row ∈ AdvancedComposer.chord_transitions, (row.2.map Prod.snd).sum = 1) ∧
    (AdvancedComposer.generate_markov_chord_progression len g).head? = some "I" ∧
    (∀ ws : List ℚ, ws.sum = 0 →
      AdvancedComposer.normalizeWeights ws =
        List.replicate ws.length (1 / (ws.length : ℚ))) := by
  refine ⟨?_, ?_, ?_⟩
  · intro row hrow
    fin_cases hrow <;> with_unfolding_all decide
  · simp only [AdvancedComposer.generate_markov_chord_progression]
    exact foldl_preserves
      (fun st : List String × String × PyRand => st.1.head? = some "I")
      AdvancedComposer.markovStep
      (fun s a hs => by
        simp only [AdvancedComposer.markovStep, List.head?_append, hs]
        rfl)
      (List.range (len - 1)) (["I"], "I", g) rfl
  · intro ws h
    simp [AdvancedComposer.normalizeWeights, h]

/-- C5 witness: the zero-row fallback and start symbol at concrete
inputs, via the theorem. -/
theorem c5_markov_witness :
    AdvancedComposer.normalizeWeights [0, 0] = [1/2, 1/2] := by
  have h := (c5_markov_table 0 ⟨fun _ => 0, fun _ => 0, 0⟩).2.2 [0, 0] (by norm_num)
  simpa using h

namespace AdvancedComposer

theorem lsysLoop_rounds_le (rules : Char → Option (List Char)) :
    ∀ (n : ℕ) (cur : List Char), (lsysLoop rules n cur).2 ≤ n := by
  intro n
  induction n with
  | zero => intro cur; exact le_refl 0
  | succ n ih =>
    intro cur
    simp only [lsysLoop]
    split
    · exact Nat.one_le_iff_ne_zero.2 (Nat.succ_ne_zero n)
    · exact Nat.succ_le_succ (ih _)

theorem lsysLoop_length_le (rules : Char → Option (List Char)) :
    ∀ (n : ℕ) (cur : List Char), 1 ≤ n →
      (lsysLoop rules n cur).1.length ≤ 10000 := by
  intro n
  induction n with
  | zero => intro cur h; cases h
  | succ n ih =>
    intro cur _
    simp only [lsysLoop]
    split
    · simpa using List.length_take_le 10000 _
    · cases n with
      | zero =>
        simp only [lsysLoop]
        omega
      | succ m => exact ih _ (Nat.succ_le_succ (Nat.zero_le m))

end AdvancedComposer

/-- C6 (amended): the L-system rewriting performs at most
`min(iterations, 10)` rounds, and as soon as at least one round runs,
the resulting string is at most 10,000 characters long
(hard-truncated, without error).  The original claim's "for every
axiom" fails only with zero rounds, where the axiom is returned
unchanged and never truncated. -/
theorem c6_l_system_caps (ax : List Char) (rules : Char → Option (List Char))
    (iterations : ℕ) :
    AdvancedComposer.l_system_rounds ax rules iterations ≤ min iterations 10 ∧
    (1 ≤ iterations →
      (AdvancedComposer.l_system_string ax rules iterations).length ≤ 10000) := by
  constructor
  · exact AdvancedComposer.lsysLoop_rounds_le rules (min iterations 10) ax
  · intro h
    exact AdvancedComposer.lsysLoop_length_le rules (min iterations 10) ax
      (le_min h (by norm_num))

/-- C6 counterexample: a 10,001-character axiom with `iterations = 0`
performs `min(0, 10) = 0` rewriting rounds and is returned untouched,
so the resulting string exceeds 10,000 characters, contradicting the
claim as stated for every axiom and iteration count. -/
theorem c6_counterexample :
    10000 <
      (AdvancedComposer.l_system_string (List.replicate 10001 'F')
        (fun _ => none) 0).length := by
  have h : AdvancedComposer.l_system_string (List.replicate 10001 'F')
      (fun _ => none) 0 = List.replicate 10001 'F' := rfl
  rw [h, List.length_replicate]
  norm_num

/-- C6 witness: the cap theorem at the source's default rules and
three iterations. -/
theorem c6_l_system_caps_witness :
    AdvancedComposer.l_system_rounds "F".data AdvancedComposer.default_rules 3 ≤
      min 3 10 ∧
    (AdvancedComposer.l_system_string "F".data AdvancedComposer.default_rules 3).length ≤
      10000 :=
  ⟨(c6_l_system_caps "F".data AdvancedComposer.default_rules 3).1,
   (c6_l_system_caps "F".data AdvancedComposer.default_rules 3).2 (by norm_num)⟩

namespace AdvancedComposer

theorem lsysNoteStep_bounds (scale_len total : ℕ) (st : List (ℕ × ℚ) × ℕ)
    (ic : ℕ × Char) (hst : ∀ e ∈ st.1, 1 ≤ e.1 ∧ e.1 ≤ scale_len) :
    ∀ e ∈ (lsysNoteStep scale_len total st ic).1, 1 ≤ e.1 ∧ e.1 ≤ scale_len := by
  simp only [lsysNoteStep]
  split_ifs with h1 h2 h3 h4 h5 h6 <;> intro e he <;>
    first
      | exact hst e he
      | (rcases List.mem_append.1 he with h | h
         · exact hst e h
         · rcases List.mem_singleton.1 h with rfl
           first
             | exact h2
             | exact h6)

theorem walkStep_bounds (scale_len lo hi : ℕ) (p : ℚ) (total : ℕ)
    (hL : 1 ≤ scale_len) (st : List (ℤ × ℚ) × ℤ × ℤ × PyRand) (i : ℕ)
    (hst : ∀ e ∈ st.1, 1 ≤ e.1 ∧ e.1 ≤ (scale_len : ℤ)) :
    ∀ e ∈ (walkStep scale_len lo hi p total st i).1,
      1 ≤ e.1 ∧ e.1 ≤ (scale_len : ℤ) := by
  have hclamp : 1 ≤ max 1 (min st.2.1 (scale_len : ℤ)) ∧
      max 1 (min st.2.1 (scale_len : ℤ)) ≤ (scale_len : ℤ) := by
    constructor
    · exact le_max_left 1 _
    · exact max_le (by exact_mod_cast hL) (min_le_right _ _)
  simp only [walkStep]
  split_ifs <;> intro e he <;>
    rcases List.mem_append.1 he with h | h <;>
    first
      | exact hst e h
      | (rcases List.mem_singleton.1 h with rfl; exact hclamp)

end AdvancedComposer

/-- C7: every note emitted by the L-system melody walk and by the
random-walk generator carries a scale degree in `[1, scale_len]` at
the moment of emission, for every symbol string, length, step-size
range, direction-change probability and random stream — the L-system
emission is guarded by an explicit bounds check, and the random walk
re-clamps the degree at the top of every iteration, which repairs any
out-of-range value left by the un-re-clamped boundary reflection
before the next scale-table access. -/
theorem c7_degrees_in_bounds (scale_len : ℕ) (syms : List Char)
    (len n lo hi : ℕ) (p : ℚ) (g1 g2 : PyRand) (hL : 3 ≤ scale_len) :
    (∀ e ∈ AdvancedComposer.generate_l_system_degrees syms len scale_len g1,
      1 ≤ e.1 ∧ e.1 ≤ scale_len) ∧
    (∀ e ∈ AdvancedComposer.generate_random_walk_degrees n lo hi p scale_len g2,
      1 ≤ e.1 ∧ e.1 ≤ (scale_len : ℤ)) := by
  constructor
  · simp only [AdvancedComposer.generate_l_system_degrees]
    exact foldl_preserves
      (fun st : List (ℕ × ℚ) × ℕ => ∀ e ∈ st.1, 1 ≤ e.1 ∧ e.1 ≤ scale_len)
      (AdvancedComposer.lsysNoteStep scale_len len)
      (fun s a hs => AdvancedComposer.lsysNoteStep_bounds scale_len len s a hs)
      _ _ (by simp)
  · simp only [AdvancedComposer.generate_random_walk_degrees]
    exact foldl_preserves
      (fun st : List (ℤ × ℚ) × ℤ × ℤ × PyRand =>
        ∀ e ∈ st.1, 1 ≤ e.1 ∧ e.1 ≤ (scale_len : ℤ))
      (AdvancedComposer.walkStep scale_len lo hi p n)
      (fun s a hs =>
        AdvancedComposer.walkStep_bounds scale_len lo hi p n
          (le_trans (by norm_num) hL) s a hs)
      _ _ (by simp)

/-- C7 witness: the bounds theorem applied to concrete emitted notes of
both generators over an 8-note scale. -/
theorem c7_degrees_in_bounds_witness :
    ((1 : ℕ) ≤ 3 ∧ (3 : ℕ) ≤ 8) ∧ ((1 : ℤ) ≤ 3 ∧ (3 : ℤ) ≤ (8 : ℕ)) :=
  ⟨(c7_degrees_in_bounds 8 "F+G-F".data 16 5 1 3 (3/10)
      ⟨fun _ => 0, fun _ => 0, 0⟩ ⟨fun _ => 0, fun _ => 0, 0⟩ (by norm_num)).1
    (3, 1) (by with_unfolding_all decide),
   (c7_degrees_in_bounds 8 "F+G-F".data 16 5 1 3 (3/10)
      ⟨fun _ => 0, fun _ => 0, 0⟩ ⟨fun _ => 0, fun _ => 0, 0⟩ (by norm_num)).2
    ((3 : ℤ), 1) (by with_unfolding_all decide)⟩

/-- C8 (amended): the measure count of `create_enhanced_composition`
equals `max(8, floor(duration_seconds * tempo_bpm / 60 / 4))` — Python
`int()` truncates the (nonnegative) quotient, it does not round it as
the claim states. -/
theorem c8_measures_floor (duration_seconds tempo_bpm : ℕ) :
    EnhancedGen.measures_count duration_seconds tempo_bpm =
      max 8 (duration_seconds * tempo_bpm / 240) := by
  unfold EnhancedGen.measures_count
  congr 1
  have hq : ((duration_seconds : ℚ) * (tempo_bpm : ℚ) / 60) / 4 =
      ((duration_seconds * tempo_bpm : ℕ) : ℚ) / ((240 : ℕ) : ℚ) := by
    push_cast
    ring
  have h0 : ¬(((duration_seconds * tempo_bpm : ℕ) : ℚ) / ((240 : ℕ) : ℚ) < 0) := by
    rw [not_lt]
    positivity
  rw [hq, ratTrunc, if_neg h0]
  calc (⌊((duration_seconds * tempo_bpm : ℕ) : ℚ) / ((240 : ℕ) : ℚ)⌋).toNat
      = ⌊((duration_seconds * tempo_bpm : ℕ) : ℚ) / ((240 : ℕ) : ℚ)⌋₊ := rfl
    _ = duration_seconds * tempo_bpm / 240 :=
        Rat.natFloor_natCast_div_natCast _ _

/-- C8 counterexample: at duration 30 s and tempo 102 BPM the quotient
is 12.75; the code computes `max(8, int(12.75)) = 12` where the
claim's `max(8, round(12.75)) = 13`. -/
theorem c8_counterexample :
    EnhancedGen.measures_count 30 102 ≠
      max 8 (round (((30 : ℚ) * 102 / 60) / 4)).toNat := by
  with_unfolding_all decide

theorem getD_set_ne {α : Type _} (l : List α) (i j : ℕ) (v d : α) (h : i ≠ j) :
    (l.set i v).getD j d = l.getD j d := by
  rw [show (l.set i v).getD j d = ((l.set i v).get? j).getD d from rfl,
    show l.getD j d = (l.get? j).getD d from rfl, List.get?_set_ne v l h]

theorem getD_replicate {α : Type _} (a : α) :
    ∀ (n j : ℕ), (List.replicate n a).getD j a = a := by
  intro n
  induction n with
  | zero => intro j; rfl
  | succ n ih =>
    intro j
    cases j with
    | zero => rfl
    | succ j => exact ih j

theorem foldl_preserves_mem {σ α : Type _} (P : σ → Prop) (step : σ → α → σ) :
    ∀ (l : List α), (∀ s a, a ∈ l → P s → P (step s a)) →
      ∀ s, P s → P (l.foldl step s) := by
  intro l
  induction l with
  | nil => intro _ s hs; exact hs
  | cons a l ih =>
    intro hstep s hs
    exact ih (fun s b hb => hstep s b (List.mem_cons_of_mem a hb)) (step s a)
      (hstep s a (List.mem_cons_self a l) hs)

namespace AdvancedComposer

theorem caStep_boundary (L rule : ℕ) (hL : 2 ≤ L) (cells : List ℕ) :
    (caStep L rule cells).getD 0 0 = 0 ∧ (caStep L rule cells).getD (L - 1) 0 = 0 := by
  unfold caStep
  refine foldl_preserves_mem
    (fun nc : List ℕ => nc.getD 0 0 = 0 ∧ nc.getD (L - 1) 0 = 0) _ _
    ?_ _ ⟨getD_replicate 0 L 0, getD_replicate 0 L (L - 1)⟩
  intro s i hi hs
  have hmem := List.mem_range'_1.1 hi
  exact ⟨by rw [getD_set_ne _ _ _ _ _ (by omega)]; exact hs.1,
         by rw [getD_set_ne _ _ _ _ _ (by omega)]; exact hs.2⟩

theorem caStep_cells (L rule : ℕ) (cells : List ℕ) :
    ∀ c ∈ caStep L rule cells, c = 0 ∨ c = 1 := by
  unfold caStep
  refine foldl_preserves (fun nc : List ℕ => ∀ c ∈ nc, c = 0 ∨ c = 1) _ ?_ _ _ ?_
  · intro s i hs c hc
    rcases List.mem_or_eq_of_mem_set hc with h | h
    · exact hs c h
    · subst h
      rw [Nat.and_one_is_mod]
      exact Nat.mod_two_eq_zero_or_one _
  · intro c hc
    exact Or.inl (List.eq_of_mem_replicate hc)

theorem caInit_cells (L : ℕ) : ∀ c ∈ caInit L, c = 0 ∨ c = 1 := by
  intro c hc
  rcases List.mem_or_eq_of_mem_set hc with h | h
  · exact Or.inl (List.eq_of_mem_replicate h)
  · exact Or.inr h

theorem caRowsFrom_cells (L rule : ℕ) :
    ∀ (n : ℕ) (cells : List ℕ), (∀ c ∈ cells, c = 0 ∨ c = 1) →
      ∀ row ∈ caRowsFrom L rule n cells, ∀ c ∈ row, c = 0 ∨ c = 1 := by
  intro n
  induction n with
  | zero =>
    intro cells hc row hrow
    rcases List.mem_singleton.1 hrow with rfl
    exact hc
  | succ n ih =>
    intro cells hc row hrow
    rcases List.mem_cons.1 hrow with rfl | h
    · exact hc
    · exact ih _ (caStep_cells L rule cells) row h

theorem caRowsFrom_length (L rule : ℕ) :
    ∀ (n : ℕ) (cells : List ℕ), (caRowsFrom L rule n cells).length = n + 1 := by
  intro n
  induction n with
  | zero => intro cells; rfl
  | succ n ih =>
    intro cells
    simp only [caRowsFrom, List.length_cons, ih]

theorem caInit_getD (L j : ℕ) (hj : j < L) :
    (caInit L).getD j 0 = if j = L / 2 then 1 else 0 := by
  unfold caInit
  by_cases h : j = L / 2
  · rw [if_pos h, h,
      show ((List.replicate L (0 : ℕ)).set (L / 2) 1).getD (L / 2) 0 =
        (((List.replicate L (0 : ℕ)).set (L / 2) 1).get? (L / 2)).getD 0 from rfl,
      List.get?_set_eq_of_lt 1 (by rw [List.length_replicate]; omega)]
    rfl
  · rw [if_neg h, getD_set_ne _ _ _ _ _ (fun he => h he.symm), getD_replicate]

end AdvancedComposer

/-- C9: for every row length `N ≥ 2` and rule number, the
cellular-automaton rhythm generator's trajectory starts at a single
active cell at index `N / 2`, performs exactly `min(5, N / 2)`
generations, keeps every cell value in `{0, 1}` in every generation,
and holds boundary cells inactive in every evolved row. -/
theorem c9_cellular_automaton (L rule : ℕ) (hL : 2 ≤ L) :
    (AdvancedComposer.generate_cellular_automata_rows L rule).length =
      min 5 (L / 2) + 1 ∧
    (∀ j < L, (AdvancedComposer.caInit L).getD j 0 = if j = L / 2 then 1 else 0) ∧
    (∀ row ∈ AdvancedComposer.generate_cellular_automata_rows L rule,
      ∀ c ∈ row, c = 0 ∨ c = 1) ∧
    (∀ cells : List ℕ,
      (AdvancedComposer.caStep L rule cells).getD 0 0 = 0 ∧
      (AdvancedComposer.caStep L rule cells).getD (L - 1) 0 = 0) :=
  ⟨AdvancedComposer.caRowsFrom_length L rule _ _,
   fun j hj => AdvancedComposer.caInit_getD L j hj,
   AdvancedComposer.caRowsFrom_cells L rule _ _ (AdvancedComposer.caInit_cells L),
   fun cells => AdvancedComposer.caStep_boundary L rule hL cells⟩

/-- C9 witness: the trajectory for rule 30 on 16 cells has
`min(5, 8) + 1` rows (initial row plus five generations). -/
theorem c9_cellular_automaton_witness :
    (AdvancedComposer.generate_cellular_automata_rows 16 30).length =
      min 5 (16 / 2) + 1 :=
  (c9_cellular_automaton 16 30 (by norm_num)).1

/-- C10: for every positive root frequency and every genre, the derived
scale-frequency table starts at the root, ends exactly one octave
above it, is strictly increasing, and has 11 entries for "blues" and
"jazz" and 8 entries for every other genre (including "minor"). -/
theorem c10_scale_table (root : ℚ) (genre : String) (hroot : 0 < root) :
    (MusicGenerator.get_scale_frequencies root genre).head? = some root ∧
    (MusicGenerator.get_scale_frequencies root genre).getLast? = some (2 * root) ∧
    List.Chain' (· < ·) (MusicGenerator.get_scale_frequencies root genre) ∧
    ((genre = "blues" ∨ genre = "jazz") →
      (MusicGenerator.get_scale_frequencies root genre).length = 11) ∧
    (¬(genre = "blues" ∨ genre = "jazz") →
      (MusicGenerator.get_scale_frequencies root genre).length = 8) := by
  simp only [MusicGenerator.get_scale_frequencies]
  split_ifs with h1 h2
  · refine ⟨?_, ?_, ?_, fun _ => by simp, fun hc => absurd h1 hc⟩
    · simp only [List.map_cons, List.head?_cons, Option.some.injEq]
      norm_num
    · rw [show (List.map (fun ratio => root * ratio)
          ([1.0, 1.125, 1.2, 1.25, 1.333, 1.4, 1.5, 1.667, 1.8, 1.875, 2.0] :
            List ℚ)).getLast? = some (root * 2.0) from rfl, Option.some.injEq]
      ring_nf
    · simp only [List.map_cons, List.map_nil, List.chain'_cons,
        List.chain'_singleton, and_true]
      repeat' apply And.intro
      all_goals exact mul_lt_mul_of_pos_left (by norm_num) hroot
  · refine ⟨?_, ?_, ?_, fun hc => absurd hc h1, fun _ => by simp⟩
    · simp only [List.map_cons, List.head?_cons, Option.some.injEq]
      norm_num
    · rw [show (List.map (fun ratio => root * ratio)
          ([1.0, 1.125, 1.2, 1.333, 1.5, 1.6, 1.8, 2.0] :
            List ℚ)).getLast? = some (root * 2.0) from rfl, Option.some.injEq]
      ring_nf
    · simp only [List.map_cons, List.map_nil, List.chain'_cons,
        List.chain'_singleton, and_true]
      repeat' apply And.intro
      all_goals exact mul_lt_mul_of_pos_left (by norm_num) hroot
  · refine ⟨?_, ?_, ?_, fun hc => absurd hc h1, fun _ => by simp⟩
    · simp only [List.map_cons, List.head?_cons, Option.some.injEq]
      norm_num
    · rw [show (List.map (fun ratio => root * ratio)
          ([1.0, 1.125, 1.25, 1.333, 1.5, 1.667, 1.875, 2.0] :
            List ℚ)).getLast? = some (root * 2.0) from rfl, Option.some.injEq]
      ring_nf
    · simp only [List.map_cons, List.map_nil, List.chain'_cons,
        List.chain'_singleton, and_true]
      repeat' apply And.intro
      all_goals exact mul_lt_mul_of_pos_left (by norm_num) hroot

/-- C10 witness: the scale-table theorem applied at root 440 Hz, genre
"rock". -/
theorem c10_scale_table_witness :
    (MusicGenerator.get_scale_frequencies 440 "rock").length = 8 :=
  (c10_scale_table 440 "rock" (by norm_num)).2.2.2.2 (by decide)
